import Mathlib

/-!
Verification of the serverless-offline per-request emulation pipeline
(src/index.js) via a shallow embedding.  JavaScript strings are modelled
as Lean Strings, JS objects whose key order matters as ordered association
lists, and JS values flowing through the response pipeline as a small JSON
value type.  Machine-level behaviour (the per-request invocation state
machine, the timer, the cross-request "current request id" marker) is
modelled as explicit step functions over state records, with event traces
standing for the possible interleavings of handler completion and timer
firing.
-/

namespace Offline

/-! ### JavaScript string primitives

The source uses String.prototype.split / startsWith / endsWith / slice /
trim.  We model these on the character lists underlying Lean strings so
that everything reduces by computation. -/

/-- JS s.split(sep) for a single-character separator: accumulator-based
splitter over the character list.  "".split(sep) = [""] as in JS. -/
def splitCharsOn (sep : Char) : List Char → List Char → List String
  | acc, [] => [String.mk acc.reverse]
  | acc, c :: cs =>
    if c = sep then String.mk acc.reverse :: splitCharsOn sep [] cs
    else splitCharsOn sep (c :: acc) cs

/-- JS s.split(sep) for a one-character separator string. -/
def jsSplit (s : String) (sep : Char) : List String := splitCharsOn sep [] s.data

/-- JS s.startsWith(p). -/
def jsStartsWith (s p : String) : Bool := p.data.isPrefixOf s.data

/-- JS s.endsWith(p). -/
def jsEndsWith (s p : String) : Bool := p.data.isSuffixOf s.data

/-- JS s.slice(1): drop the first character. -/
def jsDrop1 (s : String) : String := String.mk (s.data.drop 1)

/-- JS s.slice(1, -1): drop the first and last characters. -/
def jsSliceInner (s : String) : String := String.mk ((s.data.drop 1).dropLast)

/-- JS s.trim(): strip whitespace from both ends. -/
def jsTrim (s : String) : String :=
  String.mk (((s.data.dropWhile Char.isWhitespace).reverse.dropWhile Char.isWhitespace).reverse)

/-- JS array[i] on a list of split segments: the segment, or the empty
string (standing for the falsy undefined) when the index is out of
range. -/
def listGetD : List String → Nat → String
  | [], _ => ""
  | s :: _, 0 => s
  | _ :: rest, n + 1 => listGetD rest n

/-- someString.join(".") over a list of path segments. -/
def joinDot : List String → String
  | [] => ""
  | [s] => s
  | s :: rest => s ++ "." ++ joinDot rest

/-- The apostrophe character (used by the /^'.*'$/ literal-stripping
regex of the responseParameters processing). -/
def quoteChar : Char := Char.ofNat 39

/-! ### Regular expressions

selectionPattern matching (line 455 of src/index.js) wraps the configured
pattern string in explicit anchors and calls String.prototype.match, which
for an anchored pattern is a full-string match.  We embed the regex
fragment the configuration language actually uses (literals, the dot
metacharacter, repetition) as an AST and match with Brzozowski
derivatives.  A configured pattern string is represented by its denotation
in this AST; a rule name used as a fallback pattern denotes the literal
regex of its characters (rule names contain no metacharacters).  As in
JavaScript (without the s flag), the dot does not match line
terminators. -/

inductive Regex where
  | emptySet : Regex
  | epsilon : Regex
  | lit : Char → Regex
  | anyChar : Regex
  | cat : Regex → Regex → Regex
  | alt : Regex → Regex → Regex
  | star : Regex → Regex
deriving DecidableEq

/-- Does the regex accept the empty string? -/
def Regex.nullable : Regex → Bool
  | .emptySet => false
  | .epsilon => true
  | .lit _ => false
  | .anyChar => false
  | .cat r s => r.nullable && s.nullable
  | .alt r s => r.nullable || s.nullable
  | .star _ => true

/-- Brzozowski derivative with respect to one character.  The dot
excludes the line terminators LF and CR, as the JS dot does. -/
def Regex.deriv : Regex → Char → Regex
  | .emptySet, _ => .emptySet
  | .epsilon, _ => .emptySet
  | .lit c, a => if a = c then .epsilon else .emptySet
  | .anyChar, a => if a = Char.ofNat 10 ∨ a = Char.ofNat 13 then .emptySet else .epsilon
  | .cat r s, a => if r.nullable then .alt (.cat (r.deriv a) s) (s.deriv a) else .cat (r.deriv a) s
  | .alt r s, a => .alt (r.deriv a) (s.deriv a)
  | .star r, a => .cat (r.deriv a) (.star r)

/-- Match a character list against a regex by iterated derivatives. -/
def Regex.matchChars : Regex → List Char → Bool
  | r, [] => r.nullable
  | r, c :: cs => (r.deriv c).matchChars cs

/-- Full-string (anchored) match: the semantics of
errorMessage.match("^" ++ pattern ++ "$"). -/
def Regex.fullMatch (r : Regex) (s : String) : Bool := r.matchChars s.data

/-- The literal regex denoted by a string without metacharacters (the
fallback when a response rule has no selectionPattern: the rule's name). -/
def Regex.ofLiteral (s : String) : Regex :=
  s.data.foldr (fun c acc => Regex.cat (Regex.lit c) acc) Regex.epsilon

/-- Denotation of a JS pattern string in which the only metacharacter is
the dot (used for the stack-frame search pattern of
getArrayStackTrace). -/
def Regex.ofDottedPattern (s : String) : Regex :=
  s.data.foldr
    (fun c acc => Regex.cat (if c = '.' then Regex.anyChar else Regex.lit c) acc)
    Regex.epsilon

/-- Unanchored search, the semantics of s.match(pattern) without
anchors: some substring matches. -/
def Regex.searchMatch (r : Regex) (s : String) : Bool :=
  (Regex.cat (Regex.star Regex.anyChar) (Regex.cat r (Regex.star Regex.anyChar))).fullMatch s

/-- The /^'.*'$/ test of line 507: a single layer of surrounding
apostrophes (the dot excludes line terminators, exactly as in the JS
regex). -/
def singleQuotedRegex : Regex :=
  Regex.cat (Regex.lit quoteChar) (Regex.cat (Regex.star Regex.anyChar) (Regex.lit quoteChar))

def isSingleQuoted (s : String) : Bool := singleQuotedRegex.fullMatch s

/-! ### JSON values

Handler results and parsed bodies are JavaScript values.  The claims only
exercise objects with string/number/boolean/null leaves, so arrays are
omitted from the model. -/

inductive JValue where
  | null : JValue
  | bool : Bool → JValue
  | num : Int → JValue
  | str : String → JValue
  | obj : List (String × JValue) → JValue

/-- Field lookup in a JSON object (first binding wins, as in a JS
object whose keys are unique). -/
def jfieldLookup : List (String × JValue) → String → Option JValue
  | [], _ => none
  | (k, v) :: rest, name => if k = name then some v else jfieldLookup rest name

/-- Navigation of a JSON value along a list of path segments. -/
def jsonPathSegs : JValue → List String → JValue
  | v, [] => v
  | v, seg :: rest =>
    match v with
    | .obj fields =>
      match jfieldLookup fields seg with
      | some w => jsonPathSegs w rest
      | none => JValue.null
    | _ => JValue.null

/-- Modelled from the spec: the repository file src/jsonPath.js (required
at line 18 of src/index.js) is not included under src/.  The spec
describes the JSON-Path Extractor as a pure function
(value, dotted path) → sub-value, so we model it as dotted-path field
navigation. -/
def jsonPath (result : JValue) (dotted : String) : JValue :=
  jsonPathSegs result (jsSplit dotted '.')

/-- JS .toString() on the values the pipeline extracts (line 497 applies
it to the jsonPath extraction before assigning the header). -/
def jsToString : JValue → String
  | .null => "null"
  | .bool b => if b then "true" else "false"
  | .num n => toString n
  | .str s => s
  | .obj _ => "[object Object]"

/-! ### Errors and the Lambda error shape -/

/-- A JavaScript Error as the pipeline reads it: err.message,
err.constructor.name and err.stack. -/
structure JsError where
  message : String
  errorType : String
  stack : Option String

/-- The structured error value built at lines 443-447: the mock of the
Lambda error shape. -/
structure ErrorValue where
  errorMessage : String
  errorType : String
  stackTrace : Option (List String)

/-- The synthetic error body of _reply500 (lines 640-645). -/
structure ErrorBody where
  errorMessage : String
  errorType : String
  stackTrace : Option (List String)
  offlineInfo : String

/-- The stack-frame search pattern of line 695 (a JS regex in which the
dots match any character). -/
def stackMarkPattern : Regex := Regex.ofDottedPattern "server.route.handler.createLambdaContext"

/-- _getArrayStackTrace (lines 690-696): split the stack on newlines,
take the lines before the first one matching the frame pattern (all but
the last line when none matches, as JS slice(0, -1) does with the -1
produced by findIndex), and trim each. -/
def getArrayStackTrace (stack : Option String) : Option (List String) :=
  match stack with
  | none => none
  | some s =>
    let splittedStack := jsSplit s (Char.ofNat 10)
    let idx :=
      match splittedStack.findIdx? (fun item => stackMarkPattern.searchMatch item) with
      | some i => i
      | none => splittedStack.length - 1
    some ((splittedStack.take idx).map jsTrim)

/-! ### Response rules and failure-time response selection -/

/-- A configured response rule.  selectionPattern carries the regex
denoted by the configured pattern string; none models an absent (or
falsy) selectionPattern, for which line 455 falls back to the rule's
name. -/
structure ResponseRule where
  selectionPattern : Option Regex := none
  statusCode : Option Nat := none
  responseParameters : Option (List (String × String)) := none
  responseTemplates : Option (List (String × String)) := none

/-- Response-name selection on failure (lines 452-459): scan the
endpoint's responses in declaration order, skip the rule named
"default", and pick the first rule whose anchored selectionPattern (the
rule name when absent) matches the error message; "default" when none
matches. -/
def selectResponseName (responses : List (String × ResponseRule)) (errorMessage : String) :
    String :=
  match responses with
  | [] => "default"
  | (key, rule) :: rest =>
    if key = "default" then selectResponseName rest errorMessage
    else if (rule.selectionPattern.getD (Regex.ofLiteral key)).fullMatch errorMessage then key
    else selectResponseName rest errorMessage

/-- The structured error value built on failure (lines 440-447). -/
def failureResult (err : JsError) : ErrorValue :=
  { errorMessage := err.message
  , errorType := err.errorType
  , stackTrace := getArrayStackTrace err.stack }

/-- The failure branch of the createLambdaContext callback (lines
438-460): the error value becomes the result handed to the rest of the
response pipeline, and the response name is selected from the error
message. -/
def handleFailure (responses : List (String × ResponseRule)) (err : JsError) :
    String × ErrorValue :=
  (selectResponseName responses err.message, failureResult err)

/-- The spec's worked selection example: rules
[default, NotFound with selectionPattern "Not Found.*"]. -/
def notFoundPattern : Regex :=
  Regex.cat (Regex.ofLiteral "Not Found") (Regex.star Regex.anyChar)

def exampleRules : List (String × ResponseRule) :=
  [ ("default", {}), ("NotFound", { selectionPattern := some notFoundPattern }) ]

/-! ### The per-request invocation state machine

this.requests[requestId] = { done: false } plus the timer handle (lines
369-370, 592-595), the createLambdaContext callback guards (lines
414-429), _reply500 (lines 627-649), _replyTimeout (lines 651-662) and
_clearTimeout (lines 664-668).  The timer handle is modelled by its
observable states: absent (noTimeout: null at line 592), armed, cleared
(clearTimeout was called) and fired (Node has run the timer callback, so
timeout._called is true).  The sent list records every response.send()
in order; outcome is the spec's InvocationOutcome, recorded when a
response is sent. -/

inductive TimerState where
  | noTimer : TimerState
  | armed : Nat → TimerState
  | cleared : TimerState
  | fired : TimerState
deriving DecidableEq

inductive InvocationOutcome where
  | success : InvocationOutcome
  | failure : InvocationOutcome
  | timedOut : InvocationOutcome
deriving DecidableEq

inductive ResponseBody where
  | json : JValue → ResponseBody
  | errorBody : ErrorBody → ResponseBody
  | text : String → ResponseBody

structure SentResponse where
  statusCode : Nat
  body : ResponseBody

structure ReqState where
  done : Bool
  timer : TimerState
  sent : List SentResponse
  warnings : Nat
  outcome : Option InvocationOutcome

/-- The per-function configuration the route handler closes over. -/
structure MachineConfig where
  funName : String
  funTimeout : Nat
  noTimeout : Bool

/-- _clearTimeout (lines 664-668): returns true (and leaves the timer
alone) when the timer has already fired; otherwise calls clearTimeout,
cancelling an armed timer. -/
def clearTimeoutStep (t : TimerState) : Bool × TimerState :=
  match t with
  | .fired => (true, .fired)
  | .armed _ => (false, .cleared)
  | .cleared => (false, .cleared)
  | .noTimer => (false, .noTimer)

/-- The guard section of the createLambdaContext callback (lines
414-429) followed by the response dispatch (line 586): return silently
when the timer already fired; warn and return when done is already set;
otherwise mark done and send the computed response.  isErr tags the
outcome as failure or success. -/
def completeStep (s : ReqState) (isErr : Bool) (resp : SentResponse) : ReqState :=
  let r := clearTimeoutStep s.timer
  if r.1 then { s with timer := r.2 }
  else if s.done then { s with timer := r.2, warnings := s.warnings + 1 }
  else
    { s with timer := r.2, done := true
           , sent := s.sent ++ [resp]
           , outcome := some (if isErr then InvocationOutcome.failure else InvocationOutcome.success) }

/-- The fixed-shape 503 body of line 659. -/
def timeoutBody (funName : String) (funTimeout : Nat) : String :=
  "[Serverless-Offline] Your λ handler " ++ String.singleton quoteChar ++ funName
    ++ String.singleton quoteChar ++ " timed out after " ++ Nat.repr funTimeout ++ "ms."

/-- _replyTimeout (lines 651-662) for the single-request machine, where
the firing request is always the current one: Node marks the timer as
called, then the body marks done and sends the 503. -/
def fireStep (cfg : MachineConfig) (s : ReqState) : ReqState :=
  { s with timer := .fired, done := true
         , sent := s.sent ++
             [{ statusCode := 503
              , body := ResponseBody.text (timeoutBody cfg.funName cfg.funTimeout) }]
         , outcome := some InvocationOutcome.timedOut }

/-- The fixed trailer of the synthetic error body (line 644). -/
def offlineInfoMsg : String :=
  "If you believe this is an issue with the plugin please submit it, thanks. https://github.com/dherault/serverless-offline/issues"

/-- The body built by _reply500 (lines 640-645). -/
def reply500Body (message : String) (err : JsError) : ErrorBody :=
  { errorMessage := message
  , errorType := err.errorType
  , stackTrace := getArrayStackTrace err.stack
  , offlineInfo := offlineInfoMsg }

/-- _reply500 (lines 627-649): return silently when the timer already
fired; otherwise mark done and send the synthetic error body with status
200 ("APIG replies 200 by default on failures").  All three request-time
failure sites (handler load error at line 390, request-template render
error at line 404, uncaught synchronous handler throw at line 609) call
this function. -/
def reply500Step (s : ReqState) (message : String) (err : JsError) : ReqState :=
  let r := clearTimeoutStep s.timer
  if r.1 then { s with timer := r.2 }
  else
    { s with timer := r.2, done := true
           , sent := s.sent ++
               [{ statusCode := 200, body := ResponseBody.errorBody (reply500Body message err) }]
           , outcome := some InvocationOutcome.failure }

/-- Request state between creation (line 370) and timer arming (line
592): done is false and no timer handle exists yet.  The _reply500 calls
for handler-load and request-template errors run in this state. -/
def preArmInit : ReqState :=
  { done := false, timer := .noTimer, sent := [], warnings := 0, outcome := none }

/-- Request state right after line 592: the timer is armed for the
function's configured timeout unless timeouts are globally disabled, in
which case the handle is null. -/
def armedInit (cfg : MachineConfig) : ReqState :=
  { done := false
  , timer := if cfg.noTimeout then TimerState.noTimer else TimerState.armed cfg.funTimeout
  , sent := [], warnings := 0, outcome := none }

/-- The events that can reach a request after its timer is armed and its
handler is invoked: a completion call carrying the response the callback
computed, or the firing of the timer. -/
inductive HandlerEvent where
  | complete : Bool → SentResponse → HandlerEvent
  | fire : HandlerEvent

/-- Which events the environment can deliver: completion calls at any
time, the timer callback only while the one-shot timer is armed (a
cleared or consumed Node timer never runs). -/
def enabledH (s : ReqState) : HandlerEvent → Bool
  | .complete _ _ => true
  | .fire => match s.timer with | .armed _ => true | _ => false

def stepH (cfg : MachineConfig) (s : ReqState) : HandlerEvent → ReqState
  | .complete isErr resp => completeStep s isErr resp
  | .fire => fireStep cfg s

def runH (cfg : MachineConfig) (s : ReqState) : List HandlerEvent → ReqState
  | [] => s
  | e :: es => runH cfg (stepH cfg s e) es

def validH (cfg : MachineConfig) (s : ReqState) : List HandlerEvent → Bool
  | [] => true
  | e :: es => enabledH s e && validH cfg (stepH cfg s e) es

/-! ### The multi-request model

this.requests maps request ids to request states and
this.currentRequestId holds the id of the most recently arrived request
(lines 369-371).  _replyTimeout consults the marker (line 652). -/

structure MultiState where
  currentRequestId : Option Nat
  requests : List (Nat × ReqState)

def minit : MultiState := { currentRequestId := none, requests := [] }

def lookupReq : List (Nat × ReqState) → Nat → Option ReqState
  | [], _ => none
  | (k, v) :: rest, id => if k = id then some v else lookupReq rest id

def updateReq : List (Nat × ReqState) → Nat → (ReqState → ReqState) → List (Nat × ReqState)
  | [], _, _ => []
  | (k, v) :: rest, id, f =>
    if k = id then (k, f v) :: rest else (k, v) :: updateReq rest id f

inductive MEvent where
  | arrive : Nat → MEvent
  | complete : Nat → Bool → SentResponse → MEvent
  | fire : Nat → MEvent

/-- One step of the multi-request system.  arrive creates the request
state, arms its timer and overwrites the shared currentRequestId marker
(lines 369-371, 592).  complete runs the per-request callback guards.
fire first has Node mark the one-shot timer as called, then runs
_replyTimeout: if the firing request's id is no longer the current one
the body returns at line 652 with no further effect; otherwise it marks
done and sends the 503. -/
def mstep (cfg : MachineConfig) (st : MultiState) : MEvent → MultiState
  | .arrive id =>
    { currentRequestId := some id, requests := (id, armedInit cfg) :: st.requests }
  | .complete id isErr resp =>
    { st with requests := updateReq st.requests id (fun s => completeStep s isErr resp) }
  | .fire id =>
    let marked := { st with requests := updateReq st.requests id (fun s => { s with timer := TimerState.fired }) }
    if st.currentRequestId = some id then
      { marked with requests := updateReq marked.requests id (fun s =>
          { s with done := true
                 , sent := s.sent ++
                     [{ statusCode := 503
                      , body := ResponseBody.text (timeoutBody cfg.funName cfg.funTimeout) }]
                 , outcome := some InvocationOutcome.timedOut }) }
    else marked

def enabledM (st : MultiState) : MEvent → Bool
  | .arrive id => (lookupReq st.requests id).isNone
  | .complete id _ _ => (lookupReq st.requests id).isSome
  | .fire id =>
    match lookupReq st.requests id with
    | some s => match s.timer with | .armed _ => true | _ => false
    | none => false

def runM (cfg : MachineConfig) (st : MultiState) : List MEvent → MultiState
  | [] => st
  | e :: es => runM cfg (mstep cfg st e) es

def validM (cfg : MachineConfig) (st : MultiState) : List MEvent → Bool
  | [] => true
  | e :: es => enabledM st e && validM cfg (mstep cfg st e) es

/-! ### responseParameters processing (lines 470-521)

Headers are an ordered list of (name, value) assignments on the held
hapi response.  response.header(name, value) with no options uses hapi's
defaults (append: false, override: true) and therefore overwrites an
existing binding; the explicit override: false variant of line 565 only
assigns when no truthy value is present (hapi checks !this.headers[key]).
A header assigned the JS value undefined (the unsupported-source warning
branch reaches line 511 with headerValue undefined) is recorded as
none. -/

def setHeaderOverride :
    List (String × Option String) → String → Option String → List (String × Option String)
  | [], n, v => [(n, v)]
  | (k, w) :: rest, n, v =>
    if k = n then (k, v) :: rest else (k, w) :: setHeaderOverride rest n v

def lookupHeader : List (String × Option String) → String → Option (Option String)
  | [], _ => none
  | (k, v) :: rest, n => if k = n then some v else lookupHeader rest n

/-- Is a header present with a JS-truthy value (hapi's
!this.headers[key] test)? -/
def headerTruthy (hs : List (String × Option String)) (n : String) : Bool :=
  match lookupHeader hs n with
  | some (some v) => v ≠ ""
  | _ => false

/-- response.header(name, value, { override: false }) (lines 565-567):
assign only when no truthy value is present. -/
def setHeaderNoOverride (hs : List (String × Option String)) (n : String) (v : Option String) :
    List (String × Option String) :=
  if headerTruthy hs n then hs else setHeaderOverride hs n v

/-- The response-header assignments and warning log lines accumulated by
one responseParameters pass. -/
structure RPState where
  headers : List (String × Option String)
  warnings : Nat

/-- Processing of a single responseParameters entry (lines 477-520).
The key targets a header when it starts with "method.response.header"
and its fourth dot-component is truthy; the source is a body extraction
when it starts with "integration.response" and its third dot-component
is exactly "body" (extraction path: the components after "body", or the
whole result when there are none); a source starting with
"integration.response" whose third component is not "body" logs a
warning, leaves headerValue undefined and still reaches the assignment
of line 511; any other source is a literal with one layer of surrounding
apostrophes stripped.  A key that does not target a header logs a
warning and assigns nothing. -/
def processResponseParameter (result : JValue) (st : RPState) (kv : String × String) :
    RPState :=
  let key := kv.1
  let value := kv.2
  if jsStartsWith key "method.response.header" ∧ listGetD (jsSplit key '.') 3 ≠ "" then
    let headerName := joinDot ((jsSplit key '.').drop 3)
    if jsStartsWith value "integration.response" then
      if listGetD (jsSplit value '.') 2 = "body" then
        let extracted :=
          if listGetD (jsSplit value '.') 3 ≠ "" then
            jsonPath result (joinDot ((jsSplit value '.').drop 3))
          else result
        { headers := setHeaderOverride st.headers headerName (some (jsToString extracted))
        , warnings := st.warnings }
      else
        { headers := setHeaderOverride st.headers headerName none
        , warnings := st.warnings + 1 }
    else
      let headerValue := if isSingleQuoted value then jsSliceInner value else value
      { headers := setHeaderOverride st.headers headerName (some headerValue)
      , warnings := st.warnings }
  else
    { headers := st.headers, warnings := st.warnings + 1 }

/-- The whole pass: Object.keys(responseParameters).forEach (line
477). -/
def processResponseParameters (result : JValue) (entries : List (String × String))
    (st : RPState) : RPState :=
  entries.foldl (processResponseParameter result) st

/-- The header name an entry's key resolves to (keyArray.slice(3)
joined back with dots, line 489). -/
def headerNameOf (key : String) : String := joinDot ((jsSplit key '.').drop 3)

/-- The header value an entry's source expression resolves to: some
stringified extraction for a supported body source, none (JS undefined)
for an unsupported integration.response source, and the quote-stripped
literal otherwise. -/
def headerValueOfSource (result : JValue) (value : String) : Option String :=
  if jsStartsWith value "integration.response" then
    if listGetD (jsSplit value '.') 2 = "body" then
      some (jsToString
        (if listGetD (jsSplit value '.') 3 ≠ "" then
          jsonPath result (joinDot ((jsSplit value '.').drop 3))
        else result))
    else none
  else some (if isSingleQuoted value then jsSliceInner value else value)

/-! ### responseTemplates processing (lines 526-555)

renderVelocityTemplateObject is repository code not included under src/;
following the spec's Template Renderer contract (render(template,
context) → value, fails with TemplateRenderError) the render step is a
parameter: a function from the template body and the current result to
either a rendered value or an error. -/

/-- The responseTemplates step: when the map is a non-empty plain
object, the first declared content-type key is selected and becomes the
response content type; when that key's template body is non-empty it is
rendered against a context exposing the current result, a successful
render replacing the result and a render error being logged (counted)
with the previous result kept.  Returns (result, responseContentType,
logged render errors). -/
def processResponseTemplates (render : String → JValue → Except String JValue)
    (responseTemplates : Option (List (String × String)))
    (defaultContentType : String) (result : JValue) : JValue × String × Nat :=
  match responseTemplates with
  | none => (result, defaultContentType, 0)
  | some templates =>
    match templates with
    | [] => (result, defaultContentType, 0)
    | (templateName, responseTemplate) :: _ =>
      if responseTemplate ≠ "" then
        match render responseTemplate result with
        | .ok v => (v, templateName, 0)
        | .error _ => (result, templateName, 1)
      else (result, templateName, 0)

/-! ### Route path computation (lines 288-290)

let fullPath = this.options.prefix + (epath.startsWith('/') ?
epath.slice(1) : epath); if (fullPath !== '/' && fullPath.endsWith('/'))
fullPath = path.slice(0, -1);  — in the trimming branch, path is the
Node path module imported at line 8, not the fullPath string; the module
has no slice method, so evaluating path.slice(0, -1) throws a TypeError,
modelled as Except.error. -/
def computeFullPath (pathPrefix epath : String) : Except String String :=
  let fullPath := pathPrefix ++ (if jsStartsWith epath "/" then jsDrop1 epath else epath)
  if fullPath ≠ "/" ∧ jsEndsWith fullPath "/" then
    Except.error "TypeError: path.slice is not a function"
  else Except.ok fullPath

/-! ### Invariants used in the proofs -/

/-- A request that has not produced its outcome yet: nothing sent, and
the timer cannot already have run. -/
def pendingInv (s : ReqState) : Prop :=
  s.done = false ∧ s.sent = [] ∧ s.outcome = none ∧ s.timer ≠ TimerState.fired

/-- A request that has produced its single outcome: done, exactly one
response sent, one terminal outcome recorded, and no armed timer left
behind. -/
def settledInv (s : ReqState) : Prop :=
  s.done = true ∧ s.sent.length = 1 ∧ s.outcome.isSome = true ∧
    ∀ ms, s.timer ≠ TimerState.armed ms

def reqInv (s : ReqState) : Prop := pendingInv s ∨ settledInv s

/-- Invariant of the timeout-disabled machine: no timer handle ever
exists and the timeout outcome is never produced. -/
def noTimerInv (s : ReqState) : Prop :=
  s.timer = TimerState.noTimer ∧ s.outcome ≠ some InvocationOutcome.timedOut

/-! ### Concrete fixtures for witnesses and counterexamples -/

def cfg0 : MachineConfig := { funName := "hello", funTimeout := 1000, noTimeout := false }

def cfgNoTimeout : MachineConfig := { funName := "hello", funTimeout := 1000, noTimeout := true }

def resp0 : SentResponse := { statusCode := 200, body := ResponseBody.text "ok" }

def result0 : JValue := JValue.obj [("url", JValue.str "http://x")]

def err0 : JsError := { message := "boom", errorType := "Error", stack := none }

/-! ## Theorems -/

/-- Claim C1: on handler failure the response rule is selected by
scanning the endpoint's rules in declaration order, skipping the rule
named "default"; the first rule whose selectionPattern (the rule's name
when absent) matches the error message as a full-string anchored regex
is chosen; when none matches, "default" is selected and the structured
error value (errorMessage, errorType, stackTrace) becomes the result
handed to the rest of the response pipeline.  The last two conjuncts
check the spec's worked example. -/
theorem c1_response_selection :
    (∀ msg, selectResponseName [] msg = "default") ∧
    (∀ r rest msg,
      selectResponseName (("default", r) :: rest) msg = selectResponseName rest msg) ∧
    (∀ k r rest msg, k ≠ "default" →
      ((r.selectionPattern.getD (Regex.ofLiteral k)).fullMatch msg = true →
        selectResponseName ((k, r) :: rest) msg = k) ∧
      ((r.selectionPattern.getD (Regex.ofLiteral k)).fullMatch msg = false →
        selectResponseName ((k, r) :: rest) msg = selectResponseName rest msg)) ∧
    (∀ responses err, handleFailure responses err =
      (selectResponseName responses err.message,
       { errorMessage := err.message
       , errorType := err.errorType
       , stackTrace := getArrayStackTrace err.stack })) ∧
    selectResponseName exampleRules "Not Found: id=5" = "NotFound" ∧
    selectResponseName exampleRules "Other" = "default" := by
  refine ⟨fun msg => rfl, fun r rest msg => by simp [selectResponseName],
    fun k r rest msg hk => ⟨fun hm => ?_, fun hm => ?_⟩,
    fun responses err => rfl, by decide, by decide⟩
  · simp [selectResponseName, hk, hm]
  · simp [selectResponseName, hk, hm]

/-- Witness for C1 at a concrete rule list and failure message. -/
theorem c1_selection_witness :
    ("NotFound" ≠ "default") ∧
    (({ selectionPattern := some notFoundPattern : ResponseRule }).selectionPattern.getD
        (Regex.ofLiteral "NotFound")).fullMatch "Not Found: id=5" = true ∧
    selectResponseName
      [("NotFound", { selectionPattern := some notFoundPattern })] "Not Found: id=5"
      = "NotFound" :=
  ⟨by decide, by decide,
    (c1_response_selection.2.2.1 "NotFound" { selectionPattern := some notFoundPattern }
      [] "Not Found: id=5" (by decide)).1 (by decide)⟩

/-- Any enabled event from a settled request keeps it settled: the
callback either returns at the fired-timer guard or only warns, and the
fire event is disabled because no armed timer remains. -/
theorem settled_step (cfg : MachineConfig) (s : ReqState) (e : HandlerEvent)
    (hs : settledInv s) (he : enabledH s e = true) : settledInv (stepH cfg s e) := by
  obtain ⟨hdone, hsent, hout, htimer⟩ := hs
  cases e with
  | complete isErr resp =>
    cases ht : s.timer with
    | armed ms => exact absurd ht (htimer ms)
    | noTimer =>
      simp [stepH, completeStep, clearTimeoutStep, ht, hdone, settledInv, hsent, hout]
    | cleared =>
      simp [stepH, completeStep, clearTimeoutStep, ht, hdone, settledInv, hsent, hout]
    | fired =>
      simp [stepH, completeStep, clearTimeoutStep, ht, hdone, settledInv, hsent, hout]
  | fire =>
    cases ht : s.timer with
    | armed ms => exact absurd ht (htimer ms)
    | noTimer => simp [enabledH, ht] at he
    | cleared => simp [enabledH, ht] at he
    | fired => simp [enabledH, ht] at he

/-- Any enabled event from a pending request settles it with exactly one
sent response and one recorded outcome. -/
theorem pending_step (cfg : MachineConfig) (s : ReqState) (e : HandlerEvent)
    (hs : pendingInv s) (he : enabledH s e = true) : settledInv (stepH cfg s e) := by
  obtain ⟨hdone, hsent, hout, htimer⟩ := hs
  cases e with
  | complete isErr resp =>
    cases ht : s.timer with
    | fired => exact absurd ht htimer
    | noTimer => simp [stepH, completeStep, clearTimeoutStep, ht, hdone, settledInv, hsent]
    | armed ms => simp [stepH, completeStep, clearTimeoutStep, ht, hdone, settledInv, hsent]
    | cleared => simp [stepH, completeStep, clearTimeoutStep, ht, hdone, settledInv, hsent]
  | fire =>
    cases ht : s.timer with
    | armed ms => simp [stepH, fireStep, settledInv, hsent]
    | noTimer => simp [enabledH, ht] at he
    | cleared => simp [enabledH, ht] at he
    | fired => simp [enabledH, ht] at he

/-- settledInv is preserved along any valid trace. -/
theorem run_settled (cfg : MachineConfig) (s : ReqState) (es : List HandlerEvent)
    (hs : settledInv s) (hv : validH cfg s es = true) : settledInv (runH cfg s es) := by
  induction es generalizing s with
  | nil => exact hs
  | cons e es ih =>
    simp only [validH, Bool.and_eq_true] at hv
    exact ih _ (settled_step cfg s e hs hv.1) hv.2

/-- A nonempty valid trace from a pending request ends settled. -/
theorem run_pending_cons (cfg : MachineConfig) (s : ReqState) (e : HandlerEvent)
    (es : List HandlerEvent) (hs : pendingInv s) (hv : validH cfg s (e :: es) = true) :
    settledInv (runH cfg s (e :: es)) := by
  simp only [validH, Bool.and_eq_true] at hv
  exact run_settled cfg _ es (pending_step cfg s e hs hv.1) hv.2

theorem armedInit_pending (cfg : MachineConfig) : pendingInv (armedInit cfg) := by
  refine ⟨rfl, rfl, rfl, ?_⟩
  cases h : cfg.noTimeout <;> simp [armedInit, h]

/-- Claim C2: along every valid interleaving of completion calls and
timer firing, at most one response is sent, and as soon as any terminal
event has occurred, exactly one response has been sent and exactly one
terminal outcome recorded.  The second conjunct covers the request-time
failure path (_reply500 as called for a handler-load or render failure,
which runs before the timer is armed and after which the handler is
never invoked): it too sends exactly one response with one outcome. -/
theorem c2_single_response :
    (∀ cfg es, validH cfg (armedInit cfg) es = true →
      (runH cfg (armedInit cfg) es).sent.length ≤ 1 ∧
      (es = [] ∨
        ((runH cfg (armedInit cfg) es).sent.length = 1 ∧
         (runH cfg (armedInit cfg) es).outcome.isSome = true))) ∧
    (∀ message err,
      (reply500Step preArmInit message err).sent.length = 1 ∧
      (reply500Step preArmInit message err).outcome.isSome = true) := by
  constructor
  · intro cfg es hv
    cases es with
    | nil => exact ⟨by simp [runH, armedInit], Or.inl rfl⟩
    | cons e es =>
      have h := run_pending_cons cfg (armedInit cfg) e es (armedInit_pending cfg) hv
      exact ⟨le_of_eq h.2.1, Or.inr ⟨h.2.1, h.2.2.1⟩⟩
  · intro message err
    simp [reply500Step, preArmInit, clearTimeoutStep]

/-- Witness for C2: a request whose handler calls the completion
callback twice still sends exactly one response. -/
theorem c2_witness :
    validH cfg0 (armedInit cfg0)
      [HandlerEvent.complete false resp0, HandlerEvent.complete false resp0] = true ∧
    (runH cfg0 (armedInit cfg0)
      [HandlerEvent.complete false resp0, HandlerEvent.complete false resp0]).sent.length ≤ 1 :=
  ⟨by rfl, (c2_single_response.1 cfg0 _ (by rfl)).1⟩

/-- Counterexample to C3 as stated: after a timeout (a terminal state:
done is true and the outcome is TimedOut), a further completion call is
a silent no-op — the fired-timer guard of line 419 returns before the
double-completion warning of line 424 is reached, so zero warnings are
logged, where the claim requires one.  No response is re-sent. -/
theorem c3_counterexample :
    (runH cfg0 (armedInit cfg0) [HandlerEvent.fire]).done = true ∧
    (runH cfg0 (armedInit cfg0) [HandlerEvent.fire]).outcome
      = some InvocationOutcome.timedOut ∧
    validH cfg0 (armedInit cfg0) [HandlerEvent.fire, HandlerEvent.complete false resp0]
      = true ∧
    (runH cfg0 (armedInit cfg0)
      [HandlerEvent.fire, HandlerEvent.complete false resp0]).warnings = 0 ∧
    (runH cfg0 (armedInit cfg0)
      [HandlerEvent.fire, HandlerEvent.complete false resp0]).sent.length = 1 :=
  ⟨rfl, rfl, rfl, rfl, rfl⟩

/-- Claim C3 (amended): a further completion call after the request is
terminal never re-sends a response; after TimedOut (fired timer) it is a
silent no-op, while after Completed it is a no-op apart from exactly one
double-completion warning.  In particular, calling completion twice on a
request sends exactly one response and logs exactly one warning. -/
theorem c3_amended :
    (∀ s isErr resp, s.done = true → s.timer = TimerState.fired →
      completeStep s isErr resp = s) ∧
    (∀ s isErr resp, s.done = true → s.timer ≠ TimerState.fired →
      completeStep s isErr resp =
        { s with timer := (clearTimeoutStep s.timer).2, warnings := s.warnings + 1 }) ∧
    (∀ cfg isErr1 isErr2 resp1 resp2,
      (runH cfg (armedInit cfg)
        [HandlerEvent.complete isErr1 resp1, HandlerEvent.complete isErr2 resp2]).sent
        = [resp1] ∧
      (runH cfg (armedInit cfg)
        [HandlerEvent.complete isErr1 resp1, HandlerEvent.complete isErr2 resp2]).warnings
        = 1) := by
  refine ⟨?_, ?_, ?_⟩
  · intro s isErr resp hdone ht
    cases s
    simp_all [completeStep, clearTimeoutStep]
  · intro s isErr resp hdone ht
    cases h : s.timer with
    | fired => exact absurd h ht
    | noTimer => cases s; simp_all [completeStep, clearTimeoutStep]
    | armed ms => cases s; simp_all [completeStep, clearTimeoutStep]
    | cleared => cases s; simp_all [completeStep, clearTimeoutStep]
  · intro cfg isErr1 isErr2 resp1 resp2
    cases h : cfg.noTimeout <;>
      simp [runH, stepH, completeStep, clearTimeoutStep, armedInit, h]

/-- Witness for C3 (amended) at concrete terminal states: silent no-op
after a fired timer, a single warning after normal completion. -/
theorem c3_witness :
    completeStep
      { done := true, timer := TimerState.fired, sent := [resp0], warnings := 0
      , outcome := some InvocationOutcome.timedOut } false resp0
      = { done := true, timer := TimerState.fired, sent := [resp0], warnings := 0
        , outcome := some InvocationOutcome.timedOut } ∧
    completeStep
      { done := true, timer := TimerState.cleared, sent := [resp0], warnings := 0
      , outcome := some InvocationOutcome.success } false resp0
      = { done := true, timer := TimerState.cleared, sent := [resp0], warnings := 1
        , outcome := some InvocationOutcome.success } :=
  ⟨c3_amended.1 _ false resp0 rfl rfl,
   c3_amended.2.1 _ false resp0 rfl (by decide)⟩

/-- With timeouts disabled no event can create a timer or produce the
timeout outcome. -/
theorem noTimer_step (cfg : MachineConfig) (s : ReqState) (e : HandlerEvent)
    (hs : noTimerInv s) (he : enabledH s e = true) : noTimerInv (stepH cfg s e) := by
  obtain ⟨ht, hout⟩ := hs
  cases e with
  | complete isErr resp =>
    by_cases hd : s.done
    · simp [stepH, completeStep, clearTimeoutStep, ht, hd, noTimerInv, hout]
    · simp only [stepH, completeStep, clearTimeoutStep, ht, hd]
      refine ⟨rfl, ?_⟩
      cases isErr <;> simp
  | fire => simp [enabledH, ht] at he

theorem run_noTimer (cfg : MachineConfig) (s : ReqState) (es : List HandlerEvent)
    (hs : noTimerInv s) (hv : validH cfg s es = true) : noTimerInv (runH cfg s es) := by
  induction es generalizing s with
  | nil => exact hs
  | cons e es ih =>
    simp only [validH, Bool.and_eq_true] at hv
    exact ih _ (noTimer_step cfg s e hs hv.1) hv.2

/-- Claim C4: with timeouts enabled a timer for the function's
configured timeout is armed at request start; a firing while the request
is still pending makes the state TimedOut and sends exactly one 503
whose body is the fixed-shape string naming the function and the timeout
in milliseconds (the name and the millisecond value occur in the body);
with timeouts globally disabled no timer is armed and the TimedOut
outcome is unreachable along every valid trace. -/
theorem c4_timeout :
    (∀ cfg, cfg.noTimeout = false →
      (armedInit cfg).timer = TimerState.armed cfg.funTimeout) ∧
    (∀ cfg s, s.done = false → s.timer = TimerState.armed cfg.funTimeout →
      enabledH s HandlerEvent.fire = true ∧
      stepH cfg s HandlerEvent.fire =
        { s with timer := TimerState.fired, done := true
               , sent := s.sent ++
                   [{ statusCode := 503
                    , body := ResponseBody.text (timeoutBody cfg.funName cfg.funTimeout) }]
               , outcome := some InvocationOutcome.timedOut } ∧
      List.IsInfix cfg.funName.data (timeoutBody cfg.funName cfg.funTimeout).data ∧
      List.IsInfix (Nat.repr cfg.funTimeout).data
        (timeoutBody cfg.funName cfg.funTimeout).data) ∧
    (∀ cfg, cfg.noTimeout = true →
      (armedInit cfg).timer = TimerState.noTimer ∧
      ∀ es, validH cfg (armedInit cfg) es = true →
        (runH cfg (armedInit cfg) es).outcome ≠ some InvocationOutcome.timedOut) := by
  refine ⟨?_, ?_, ?_⟩
  · intro cfg h
    simp [armedInit, h]
  · intro cfg s hdone ht
    refine ⟨by simp [enabledH, ht], rfl, ?_, ?_⟩
    · refine ⟨("[Serverless-Offline] Your λ handler " ++ String.singleton quoteChar).data,
        (String.singleton quoteChar ++ " timed out after "
          ++ Nat.repr cfg.funTimeout ++ "ms.").data, ?_⟩
      simp [timeoutBody, String.data_append, List.append_assoc]
    · refine ⟨("[Serverless-Offline] Your λ handler " ++ String.singleton quoteChar
        ++ cfg.funName ++ String.singleton quoteChar ++ " timed out after ").data,
        "ms.".data, ?_⟩
      simp [timeoutBody, String.data_append, List.append_assoc]
  · intro cfg h
    refine ⟨by simp [armedInit, h], ?_⟩
    intro es hv
    exact (run_noTimer cfg (armedInit cfg) es ⟨by simp [armedInit, h], by simp [armedInit]⟩ hv).2

/-- Witness for C4 at concrete configurations, with and without the
noTimeout switch. -/
theorem c4_witness :
    (cfg0.noTimeout = false ∧ (armedInit cfg0).timer = TimerState.armed 1000) ∧
    ((armedInit cfg0).done = false ∧
      stepH cfg0 (armedInit cfg0) HandlerEvent.fire =
        { done := true, timer := TimerState.fired
        , sent := [{ statusCode := 503
                   , body := ResponseBody.text (timeoutBody "hello" 1000) }]
        , warnings := 0, outcome := some InvocationOutcome.timedOut }) ∧
    (cfgNoTimeout.noTimeout = true ∧
      validH cfgNoTimeout (armedInit cfgNoTimeout) [HandlerEvent.complete false resp0] = true ∧
      (runH cfgNoTimeout (armedInit cfgNoTimeout) [HandlerEvent.complete false resp0]).outcome
        ≠ some InvocationOutcome.timedOut) :=
  ⟨⟨rfl, c4_timeout.1 cfg0 rfl⟩,
   ⟨rfl, (c4_timeout.2.1 cfg0 (armedInit cfg0) rfl rfl).2.1⟩,
   ⟨rfl, rfl,
    (c4_timeout.2.2 cfgNoTimeout rfl).2 [HandlerEvent.complete false resp0] rfl⟩⟩

theorem lookupReq_updateReq_self (id : Nat) (f : ReqState → ReqState) :
    ∀ (l : List (Nat × ReqState)) (v : ReqState),
      lookupReq l id = some v → lookupReq (updateReq l id f) id = some (f v) := by
  intro l
  induction l with
  | nil => intro v h; simp [lookupReq] at h
  | cons kv rest ih =>
    intro v h
    obtain ⟨k, w⟩ := kv
    by_cases hk : k = id
    · subst hk
      simp only [lookupReq, if_pos rfl] at h
      cases h
      simp [updateReq, lookupReq]
    · simp only [lookupReq, if_neg hk] at h
      simp only [updateReq, if_neg hk, lookupReq, if_neg hk]
      exact ih v h

theorem lookupReq_updateReq_ne (id j : Nat) (f : ReqState → ReqState) (hne : j ≠ id) :
    ∀ l, lookupReq (updateReq l id f) j = lookupReq l j := by
  intro l
  induction l with
  | nil => rfl
  | cons kv rest ih =>
    obtain ⟨k, w⟩ := kv
    by_cases hk : k = id
    · subst hk
      have hkj : k ≠ j := fun h => hne h.symm
      simp [updateReq, lookupReq, hkj]
    · simp only [updateReq, if_neg hk, lookupReq]
      by_cases hj : k = j
      · simp [hj]
      · simp [hj, ih]

/-- Counterexample to C5 as stated: request 1 arrives, then request 2
arrives while request 1 is still pending (done = false, nothing sent);
when request 1's timer fires, the currentRequestId guard of line 652
sees that 1 is no longer current and returns, so request 1 receives no
503 — its timeout IS suppressed by the arrival of the newer request,
where the claim says a still-pending earlier request is not
suppressed. -/
theorem c5_counterexample :
    validM cfg0 minit [MEvent.arrive 1, MEvent.arrive 2, MEvent.fire 1] = true ∧
    lookupReq (runM cfg0 minit [MEvent.arrive 1, MEvent.arrive 2]).requests 1
      = some (armedInit cfg0) ∧
    (armedInit cfg0).done = false ∧
    (runM cfg0 minit [MEvent.arrive 1, MEvent.arrive 2, MEvent.fire 1]).currentRequestId
      = some 2 ∧
    lookupReq (runM cfg0 minit [MEvent.arrive 1, MEvent.arrive 2, MEvent.fire 1]).requests 1
      = some { done := false, timer := TimerState.fired, sent := [], warnings := 0
             , outcome := none } :=
  ⟨rfl, rfl, rfl, rfl, rfl⟩

/-- Claim C5 (amended): the "most recent request id" marker suppresses
every timer whose request id is no longer current, regardless of whether
that request has finished: a stale firing is a no-op apart from the
one-shot timer being consumed — no response is sent to any request and
no other request state changes — so the timeout of an earlier request
that is still pending is also suppressed by the arrival of a newer
request.  A timer firing for the current request produces the 503
timeout response for exactly that request. -/
theorem c5_amended :
    (∀ cfg st id s0 ms, lookupReq st.requests id = some s0 →
      s0.timer = TimerState.armed ms → st.currentRequestId ≠ some id →
      (mstep cfg st (MEvent.fire id)).currentRequestId = st.currentRequestId ∧
      lookupReq (mstep cfg st (MEvent.fire id)).requests id
        = some { s0 with timer := TimerState.fired } ∧
      ∀ j, j ≠ id →
        lookupReq (mstep cfg st (MEvent.fire id)).requests j = lookupReq st.requests j) ∧
    (∀ cfg st id s0 ms, lookupReq st.requests id = some s0 →
      s0.timer = TimerState.armed ms → st.currentRequestId = some id →
      lookupReq (mstep cfg st (MEvent.fire id)).requests id
        = some { s0 with timer := TimerState.fired, done := true
                       , sent := s0.sent ++
                           [{ statusCode := 503
                            , body := ResponseBody.text (timeoutBody cfg.funName cfg.funTimeout) }]
                       , outcome := some InvocationOutcome.timedOut } ∧
      ∀ j, j ≠ id →
        lookupReq (mstep cfg st (MEvent.fire id)).requests j = lookupReq st.requests j) := by
  constructor
  · intro cfg st id s0 ms h ht hcur
    refine ⟨by simp [mstep, hcur], ?_, ?_⟩
    · have hl := lookupReq_updateReq_self id
        (fun s => { s with timer := TimerState.fired }) st.requests s0 h
      simpa [mstep, hcur] using hl
    · intro j hj
      have hl := lookupReq_updateReq_ne id j
        (fun s => { s with timer := TimerState.fired }) hj st.requests
      simpa [mstep, hcur] using hl
  · intro cfg st id s0 ms h ht hcur
    constructor
    · have hl := lookupReq_updateReq_self id (fun s =>
          { s with done := true
                 , sent := s.sent ++
                     [{ statusCode := 503
                      , body := ResponseBody.text (timeoutBody cfg.funName cfg.funTimeout) }]
                 , outcome := some InvocationOutcome.timedOut })
        (updateReq st.requests id (fun s => { s with timer := TimerState.fired })) _
        (lookupReq_updateReq_self id
          (fun s => { s with timer := TimerState.fired }) st.requests s0 h)
      simpa [mstep, hcur] using hl
    · intro j hj
      have h1 := lookupReq_updateReq_ne id j
        (fun s => { s with timer := TimerState.fired }) hj st.requests
      have h2 := lookupReq_updateReq_ne id j (fun s =>
          { s with done := true
                 , sent := s.sent ++
                     [{ statusCode := 503
                      , body := ResponseBody.text (timeoutBody cfg.funName cfg.funTimeout) }]
                 , outcome := some InvocationOutcome.timedOut }) hj
        (updateReq st.requests id (fun s => { s with timer := TimerState.fired }))
      simp [mstep, hcur, h1, h2]

/-- Witness for C5 (amended): a stale firing after a newer arrival only
consumes the timer; a current firing sends the 503. -/
theorem c5_witness :
    lookupReq (mstep cfg0 (runM cfg0 minit [MEvent.arrive 1, MEvent.arrive 2])
        (MEvent.fire 1)).requests 1
      = some { done := false, timer := TimerState.fired, sent := [], warnings := 0
             , outcome := none } ∧
    lookupReq (mstep cfg0 (runM cfg0 minit [MEvent.arrive 1]) (MEvent.fire 1)).requests 1
      = some { done := true, timer := TimerState.fired
             , sent := [{ statusCode := 503
                        , body := ResponseBody.text (timeoutBody "hello" 1000) }]
             , warnings := 0, outcome := some InvocationOutcome.timedOut } :=
  ⟨(c5_amended.1 cfg0 (runM cfg0 minit [MEvent.arrive 1, MEvent.arrive 2]) 1
      (armedInit cfg0) 1000 rfl rfl (by decide)).2.1,
   (c5_amended.2 cfg0 (runM cfg0 minit [MEvent.arrive 1]) 1
      (armedInit cfg0) 1000 rfl rfl rfl).1⟩

/-- Strings with one layer of surrounding apostrophes, built without
quote characters in source literals. -/
def quotedA : String := String.singleton quoteChar ++ "a" ++ String.singleton quoteChar

def quotedB : String := String.singleton quoteChar ++ "b" ++ String.singleton quoteChar

/-- Characterization of one responseParameters entry whose key targets a
header: the targeted header is assigned the value the source expression
resolves to (with override), and a warning is counted exactly when the
source is an unsupported integration.response expression. -/
theorem processRP_target (result : JValue) (st : RPState) (key value : String)
    (hk : jsStartsWith key "method.response.header" ∧ listGetD (jsSplit key '.') 3 ≠ "") :
    processResponseParameter result st (key, value) =
      { headers := setHeaderOverride st.headers (headerNameOf key)
          (headerValueOfSource result value)
      , warnings := st.warnings +
          (if jsStartsWith value "integration.response" ∧
              listGetD (jsSplit value '.') 2 ≠ "body" then 1 else 0) } := by
  by_cases hv : jsStartsWith value "integration.response"
  · by_cases hb : listGetD (jsSplit value '.') 2 = "body"
    · simp [processResponseParameter, headerNameOf, headerValueOfSource, hk, hv, hb]
    · simp [processResponseParameter, headerNameOf, headerValueOfSource, hk, hv, hb]
  · simp [processResponseParameter, headerNameOf, headerValueOfSource, hk, hv]

theorem lookupHeader_setHeaderOverride :
    ∀ (hs : List (String × Option String)) (n : String) (v : Option String),
      lookupHeader (setHeaderOverride hs n v) n = some v := by
  intro hs n v
  induction hs with
  | nil => simp [setHeaderOverride, lookupHeader]
  | cons kv rest ih =>
    obtain ⟨k, w⟩ := kv
    by_cases hk : k = n
    · simp [setHeaderOverride, lookupHeader, hk]
    · simp [setHeaderOverride, lookupHeader, hk, ih]

/-- Counterexample to C6 as stated: the source
"integration.response.bodyz" begins with "integration.response.body",
so the claim requires the header to be set to a JSON-path extraction;
the code instead takes the unsupported-source branch (its third
dot-component is "bodyz", not "body"), logs the warning, and still
assigns the header — with the undefined headerValue — rather than
skipping the mapping. -/
theorem c6_counterexample :
    jsStartsWith "integration.response.bodyz" "integration.response.body" = true ∧
    (processResponseParameter result0 { headers := [], warnings := 0 }
      ("method.response.header.X", "integration.response.bodyz")).headers
      = [("X", none)] ∧
    (processResponseParameter result0 { headers := [], warnings := 0 }
      ("method.response.header.X", "integration.response.bodyz")).warnings = 1 :=
  ⟨rfl, rfl, rfl⟩

/-- Claim C6 (amended): for a responseParameters entry whose key is
method.response.header.NAME — if the source starts with
integration.response and its third dot-component is exactly "body", the
header is set to the stringified JSON-path extraction from the result
(the whole result when no sub-path is given); if the source starts with
integration.response but its third component is not "body", a warning is
logged and the header is nonetheless assigned the undefined value (the
mapping is not skipped); otherwise the source is a literal with one
layer of surrounding apostrophes stripped.  A key that does not target a
header only logs a warning.  The final conjunct is the spec's worked
Location example. -/
theorem c6_amended :
    (∀ result st key value,
      jsStartsWith key "method.response.header" ∧ listGetD (jsSplit key '.') 3 ≠ "" →
      processResponseParameter result st (key, value) =
        { headers := setHeaderOverride st.headers (headerNameOf key)
            (headerValueOfSource result value)
        , warnings := st.warnings +
            (if jsStartsWith value "integration.response" ∧
                listGetD (jsSplit value '.') 2 ≠ "body" then 1 else 0) }) ∧
    (∀ result st key value,
      ¬(jsStartsWith key "method.response.header" ∧ listGetD (jsSplit key '.') 3 ≠ "") →
      processResponseParameter result st (key, value) =
        { headers := st.headers, warnings := st.warnings + 1 }) ∧
    (processResponseParameter result0 { headers := [], warnings := 0 }
      ("method.response.header.Location", "integration.response.body.url")).headers
      = [("Location", some "http://x")] := by
  refine ⟨fun result st key value hk => processRP_target result st key value hk,
    ?_, rfl⟩
  intro result st key value hk
  simp [processResponseParameter, hk]

/-- Witness for C6 (amended) at the spec's Location example. -/
theorem c6_witness :
    processResponseParameter result0 { headers := [], warnings := 0 }
      ("method.response.header.Location", "integration.response.body.url")
      = { headers := setHeaderOverride [] (headerNameOf "method.response.header.Location")
            (headerValueOfSource result0 "integration.response.body.url")
        , warnings := 0 } :=
  c6_amended.1 result0 { headers := [], warnings := 0 }
    "method.response.header.Location" "integration.response.body.url" (by decide)

/-- Counterexample to C7 as stated: the keys
method.response.header.X and method.response.headerQ.X both pass the
method.response.header test (it is an unanchored prefix check) and both
resolve to the header name X, and the later entry overwrites the value
the earlier entry set (hapi assigns with override by default at line
511): after the pass X holds the second literal, not the first. -/
theorem c7_counterexample :
    (processResponseParameters result0 [("method.response.header.X", quotedA)]
      { headers := [], warnings := 0 }).headers = [("X", some "a")] ∧
    (processResponseParameters result0
      [("method.response.header.X", quotedA), ("method.response.headerQ.X", quotedB)]
      { headers := [], warnings := 0 }).headers = [("X", some "b")] ∧
    ("a" : String) ≠ "b" :=
  ⟨rfl, rfl, by decide⟩

/-- Claim C7 (amended): during the responseParameters pass
response.header is applied with override semantics — a later assignment
to the same header name replaces the earlier value — so after an entry
is processed, the header it targets holds exactly that entry's resolved
value, whatever earlier entries had set. -/
theorem c7_amended :
    (∀ (hs : List (String × Option String)) (n : String) (v : Option String),
      lookupHeader (setHeaderOverride hs n v) n = some v) ∧
    (∀ result st key value,
      jsStartsWith key "method.response.header" ∧ listGetD (jsSplit key '.') 3 ≠ "" →
      lookupHeader (processResponseParameter result st (key, value)).headers
        (headerNameOf key) = some (headerValueOfSource result value)) := by
  refine ⟨lookupHeader_setHeaderOverride, ?_⟩
  intro result st key value hk
  rw [processRP_target result st key value hk]
  exact lookupHeader_setHeaderOverride st.headers (headerNameOf key)
    (headerValueOfSource result value)

/-- Witness for C7 (amended): the later headerQ.X entry overwrites the
X header previously set to the literal a. -/
theorem c7_witness :
    lookupHeader (processResponseParameter result0
      { headers := [("X", some "a")], warnings := 0 }
      ("method.response.headerQ.X", quotedB)).headers "X" = some (some "b") :=
  c7_amended.2 result0 { headers := [("X", some "a")], warnings := 0 }
    "method.response.headerQ.X" quotedB (by decide)

/-- Counterexample to C8 as stated: a non-empty responseTemplates map
whose first key has an empty template body.  The claim requires the
default content type to be kept; the code sets responseContentType to
the first key (line 538) before testing the template body, so the
content type becomes text/html even though the body is left as the raw
result. -/
theorem c8_counterexample :
    processResponseTemplates (fun _ r => Except.ok r) (some [("text/html", "")])
      "application/json" (JValue.str "raw") = (JValue.str "raw", "text/html", 0) ∧
    ("text/html" : String) ≠ "application/json" :=
  ⟨rfl, by decide⟩

/-- Claim C8 (amended): when responseTemplates is a non-empty map the
single first-declared content-type key is selected and the response
content type is set to that key even when its template body is empty;
when the body is non-empty the template is rendered against the handler
result, a successful render replacing the body and a render error being
logged with the previous unrendered result sent; an absent or empty map
leaves the raw result and the default content type. -/
theorem c8_amended :
    (∀ (render : String → JValue → Except String JValue) d r,
      processResponseTemplates render none d r = (r, d, 0)) ∧
    (∀ (render : String → JValue → Except String JValue) d r,
      processResponseTemplates render (some []) d r = (r, d, 0)) ∧
    (∀ (render : String → JValue → Except String JValue) d r n rest,
      processResponseTemplates render (some ((n, "") :: rest)) d r = (r, n, 0)) ∧
    (∀ (render : String → JValue → Except String JValue) d r n t rest v,
      t ≠ "" → render t r = Except.ok v →
      processResponseTemplates render (some ((n, t) :: rest)) d r = (v, n, 0)) ∧
    (∀ (render : String → JValue → Except String JValue) d r n t rest e,
      t ≠ "" → render t r = Except.error e →
      processResponseTemplates render (some ((n, t) :: rest)) d r = (r, n, 1)) := by
  refine ⟨fun render d r => rfl, fun render d r => rfl, ?_, ?_, ?_⟩
  · intro render d r n rest
    simp [processResponseTemplates]
  · intro render d r n t rest v ht hr
    simp [processResponseTemplates, ht, hr]
  · intro render d r n t rest e ht hr
    simp [processResponseTemplates, ht, hr]

/-- Witness for C8 (amended): a successful render replaces the body and
the content type becomes the selected key. -/
theorem c8_witness :
    ("hello" : String) ≠ "" ∧
    processResponseTemplates (fun _ _ => Except.ok (JValue.str "rendered"))
      (some [("text/html", "hello")]) "application/json" (JValue.str "raw")
      = (JValue.str "rendered", "text/html", 0) :=
  ⟨by decide,
   c8_amended.2.2.2.1 (fun _ _ => Except.ok (JValue.str "rendered")) "application/json"
     (JValue.str "raw") "text/html" "hello" [] (JValue.str "rendered") (by decide) rfl⟩

/-- Claim C9: whenever _reply500 sends a synthetic error response (it is
the one function behind the handler-load-error, render-error and
uncaught-throw sites), the response carries status code 200 — not a 5xx
— and the errorMessage/errorType/stackTrace/offlineInfo body shape. -/
theorem c9_reply500 :
    ∀ s message err, s.timer ≠ TimerState.fired →
      (reply500Step s message err).sent =
        s.sent ++ [{ statusCode := 200
                   , body := ResponseBody.errorBody
                       { errorMessage := message
                       , errorType := err.errorType
                       , stackTrace := getArrayStackTrace err.stack
                       , offlineInfo := offlineInfoMsg } }] ∧
      (reply500Step s message err).done = true ∧
      ¬(500 ≤ (200 : Nat)) := by
  intro s message err ht
  refine ⟨?_, ?_, by decide⟩ <;>
  · cases h : s.timer with
    | fired => exact absurd h ht
    | noTimer => simp [reply500Step, clearTimeoutStep, h, reply500Body]
    | armed ms => simp [reply500Step, clearTimeoutStep, h, reply500Body]
    | cleared => simp [reply500Step, clearTimeoutStep, h, reply500Body]

/-- Witness for C9 at a concrete handler-load failure. -/
theorem c9_witness :
    preArmInit.timer ≠ TimerState.fired ∧
    (reply500Step preArmInit "Error while loading hello" err0).sent
      = [{ statusCode := 200
         , body := ResponseBody.errorBody
             { errorMessage := "Error while loading hello", errorType := "Error"
             , stackTrace := none, offlineInfo := offlineInfoMsg } }] :=
  ⟨by decide,
   ((c9_reply500 preArmInit "Error while loading hello" err0 (by decide)).1).trans rfl⟩

/-- Claim C10: for every endpoint whose computed full path is not "/"
and ends with "/", route registration does not produce a route with the
trailing slash trimmed — the trimming expression reads the path module
instead of the fullPath string, so evaluating it throws (no Except.ok
value is produced); any other path registers unchanged. -/
theorem c10_trailing_slash :
    ∀ pathPrefix epath,
      (pathPrefix ++ (if jsStartsWith epath "/" then jsDrop1 epath else epath) ≠ "/" →
        jsEndsWith (pathPrefix ++ (if jsStartsWith epath "/" then jsDrop1 epath else epath))
          "/" = true →
        computeFullPath pathPrefix epath
          = Except.error "TypeError: path.slice is not a function" ∧
        ∀ s, computeFullPath pathPrefix epath ≠ Except.ok s) ∧
      (¬(pathPrefix ++ (if jsStartsWith epath "/" then jsDrop1 epath else epath) ≠ "/" ∧
          jsEndsWith (pathPrefix ++ (if jsStartsWith epath "/" then jsDrop1 epath else epath))
            "/" = true) →
        computeFullPath pathPrefix epath
          = Except.ok (pathPrefix ++ (if jsStartsWith epath "/" then jsDrop1 epath else epath))) := by
  intro pathPrefix epath
  constructor
  · intro h1 h2
    constructor
    · simp [computeFullPath, h1, h2]
    · intro s
      simp [computeFullPath, h1, h2]
  · intro h
    simp only [computeFullPath]
    rw [if_neg h]

/-- Witness for C10: prefix "/" and endpoint path "hello/" give the full
path "/hello/", and route registration throws instead of trimming. -/
theorem c10_witness :
    ("/" ++ (if jsStartsWith "hello/" "/" then jsDrop1 "hello/" else "hello/") ≠ "/") ∧
    jsEndsWith ("/" ++ (if jsStartsWith "hello/" "/" then jsDrop1 "hello/" else "hello/"))
      "/" = true ∧
    computeFullPath "/" "hello/" = Except.error "TypeError: path.slice is not a function" :=
  ⟨by decide, by decide, ((c10_trailing_slash "/" "hello/").1 (by decide) (by decide)).1⟩

end Offline




